import Mathlib

/-!
Verification of the beacon-kit RANDAO / fork-domain / engine-request slice

Shallow embedding of the state-transition and execution-interface core:
`StateProcessor.processRandaoReveal`, `StateProcessor.processRandaoMixesReset`,
`StateProcessor.buildRandaoMix`, `ForkData.ComputeDomain`, and the engine
request builders (`BuildNewPayloadRequest` etc. and
`NewPayloadRequest.HasValidVersionedAndBlockHashes`).

Bytes are modelled as `Nat` values below 256, byte strings as `List Nat`.
Machine 32-bit arithmetic is `Nat` arithmetic reduced modulo `2^32`
(written as the literal `4294967296`).
-/

namespace BeaconKit

/-! ## SHA-256 (FIPS 180-4) over byte lists

The source calls the library function `sha256.Hash` (and, through the
generated SSZ code, the same primitive); we embed the full standard
algorithm so that hash values can be computed on concrete inputs. -/

/-- Right-rotation of a 32-bit word held in a `Nat`. -/
def rotr32 (x n : Nat) : Nat :=
  ((x >>> n) ||| (x <<< (32 - n))) % 4294967296

/-- Big sigma-0 of SHA-256. -/
def capSig0 (x : Nat) : Nat := rotr32 x 2 ^^^ rotr32 x 13 ^^^ rotr32 x 22

/-- Big sigma-1 of SHA-256. -/
def capSig1 (x : Nat) : Nat := rotr32 x 6 ^^^ rotr32 x 11 ^^^ rotr32 x 25

/-- Small sigma-0 of SHA-256. -/
def smlSig0 (x : Nat) : Nat := rotr32 x 7 ^^^ rotr32 x 18 ^^^ (x >>> 3)

/-- Small sigma-1 of SHA-256. -/
def smlSig1 (x : Nat) : Nat := rotr32 x 17 ^^^ rotr32 x 19 ^^^ (x >>> 10)

/-- The 64 SHA-256 round constants (the fractional parts of the cube roots
of the first 64 primes, in decimal). -/
def sha256K : List Nat :=
  [1116352408, 1899447441, 3049323471, 3921009573,
   961987163, 1508970993, 2453635748, 2870763221,
   3624381080, 310598401, 607225278, 1426881987,
   1925078388, 2162078206, 2614888103, 3248222580,
   3835390401, 4022224774, 264347078, 604807628,
   770255983, 1249150122, 1555081692, 1996064986,
   2554220882, 2821834349, 2952996808, 3210313671,
   3336571891, 3584528711, 113926993, 338241895,
   666307205, 773529912, 1294757372, 1396182291,
   1695183700, 1986661051, 2177026350, 2456956037,
   2730485921, 2820302411, 3259730800, 3345764771,
   3516065817, 3600352804, 4094571909, 275423344,
   430227734, 506948616, 659060556, 883997877,
   958139571, 1322822218, 1537002063, 1747873779,
   1955562222, 2024104815, 2227730452, 2361852424,
   2428436474, 2756734187, 3204031479, 3329325298]

/-- Message-schedule extension: `n` more words pushed onto the reversed
accumulator `acc` (most recent word first). -/
def sha256ScheduleAux : Nat → List Nat → List Nat
  | 0, acc => acc.reverse
  | n + 1, acc =>
      sha256ScheduleAux n
        (((smlSig1 (acc.getD 1 0) + acc.getD 6 0 +
           smlSig0 (acc.getD 14 0) + acc.getD 15 0) % 4294967296) :: acc)

/-- Extend a 16-word block to the full 64-word message schedule. -/
def sha256Schedule (ws : List Nat) : List Nat :=
  sha256ScheduleAux 48 ws.reverse

/-- The eight 32-bit working variables of the SHA-256 compression loop. -/
structure Hash8 where
  a : Nat
  b : Nat
  c : Nat
  d : Nat
  e : Nat
  f : Nat
  g : Nat
  h : Nat
deriving DecidableEq, Repr

/-- The SHA-256 initial hash value (decimal). -/
def sha256H0 : Hash8 :=
  ⟨1779033703, 3144134277, 1013904242, 2773480762,
   1359893119, 2600822924, 528734635, 1541459225⟩

/-- One round of the SHA-256 compression function. -/
def sha256Round (st : Hash8) (k w : Nat) : Hash8 :=
  let ch := (st.e &&& st.f) ^^^ ((st.e ^^^ 0xffffffff) &&& st.g)
  let t1 := (st.h + capSig1 st.e + ch + k + w) % 4294967296
  let maj := (st.a &&& st.b) ^^^ (st.a &&& st.c) ^^^ (st.b &&& st.c)
  let t2 := (capSig0 st.a + maj) % 4294967296
  ⟨(t1 + t2) % 4294967296, st.a, st.b, st.c,
   (st.d + t1) % 4294967296, st.e, st.f, st.g⟩

/-- Compress one 16-word message block into the running hash state. -/
def sha256Compress (st : Hash8) (block : List Nat) : Hash8 :=
  let ws := sha256Schedule block
  let t := (List.zip sha256K ws).foldl (fun s kw => sha256Round s kw.1 kw.2) st
  ⟨(st.a + t.a) % 4294967296, (st.b + t.b) % 4294967296,
   (st.c + t.c) % 4294967296, (st.d + t.d) % 4294967296,
   (st.e + t.e) % 4294967296, (st.f + t.f) % 4294967296,
   (st.g + t.g) % 4294967296, (st.h + t.h) % 4294967296⟩

/-- Pack bytes into big-endian 32-bit words, four bytes at a time. -/
def wordsOfBytes : List Nat → List Nat
  | a :: b :: c :: d :: rest =>
      ((a <<< 24) ||| (b <<< 16) ||| (c <<< 8) ||| d) :: wordsOfBytes rest
  | _ => []

/-- The `n`-byte big-endian encoding of `x`. -/
def toBytesBE : Nat → Nat → List Nat
  | 0, _ => []
  | n + 1, x => toBytesBE n (x >>> 8) ++ [x % 256]

/-- The `n`-byte little-endian encoding of `x`. -/
def toBytesLE : Nat → Nat → List Nat
  | 0, _ => []
  | n + 1, x => (x % 256) :: toBytesLE n (x >>> 8)

/-- Split a byte string into 64-byte blocks, structurally recursing on a
fuel bound (each step consumes at least one byte, so the list's length is
enough fuel). -/
def blocksOfAux : Nat → List Nat → List (List Nat)
  | 0, _ => []
  | _, [] => []
  | fuel + 1, a :: rest =>
      (a :: rest).take 64 :: blocksOfAux fuel ((a :: rest).drop 64)

/-- Split a byte string into 64-byte blocks (the last may be shorter;
after SHA-256 padding it never is). -/
def blocksOf (l : List Nat) : List (List Nat) :=
  blocksOfAux l.length l

/-- SHA-256 padding: append `0x80`, zeros, and the 8-byte big-endian bit
length, reaching a multiple of 64 bytes. -/
def padMessage (msg : List Nat) : List Nat :=
  msg ++ [128] ++ List.replicate ((64 - ((msg.length + 9) % 64)) % 64) 0 ++
    toBytesBE 8 (8 * msg.length)

/-- SHA-256 of a byte string, as a 32-byte string. -/
def sha256 (msg : List Nat) : List Nat :=
  let final := (blocksOf (padMessage msg)).foldl
    (fun st b => sha256Compress st (wordsOfBytes b)) sha256H0
  toBytesBE 4 final.a ++ toBytesBE 4 final.b ++ toBytesBE 4 final.c ++
  toBytesBE 4 final.d ++ toBytesBE 4 final.e ++ toBytesBE 4 final.f ++
  toBytesBE 4 final.g ++ toBytesBE 4 final.h

theorem toBytesBE_length (n x : Nat) : (toBytesBE n x).length = n := by
  induction n generalizing x with
  | zero => rfl
  | succ n ih => simp [toBytesBE, ih]

/-- SHA-256 always produces exactly 32 bytes. -/
theorem sha256_length (msg : List Nat) : (sha256 msg).length = 32 := by
  simp [sha256, toBytesBE_length]

/-! ## Errors

The spec's error taxonomy for this slice (§7): validation errors
(invalid proposer, invalid RANDAO signature, invalid block hash, invalid
versioned hashes) and store errors. -/

/-- The error taxonomy of this slice. -/
inductive Err where
  | invalidProposer
  | invalidSignature
  | storeError
  | invalidBlockHash
  | invalidVersionedHashes
deriving DecidableEq, Repr

/-! ## ForkData and domain computation (`fork_data.go`) -/

/-- Source `ForkData`: a 4-byte current version and a 32-byte genesis validators
root (`type ForkData struct`). -/
structure ForkData where
  currentVersion : List Nat
  genesisValidatorsRoot : List Nat
deriving DecidableEq, Repr

/-- Source `NewForkData` / `fd.New`: plain construction. -/
def ForkData.new (currentVersion genesisValidatorsRoot : List Nat) : ForkData :=
  ⟨currentVersion, genesisValidatorsRoot⟩

/-- Modelled from the spec: `ForkData.HashTreeRoot` is generated SSZ code not
among the available sources.  The spec prescribes the Merkleization of a
two-field fixed-size container: chunk A is `current_version` zero-padded to
32 bytes, chunk B is `genesis_validators_root` (already 32 bytes), and
`fork_data_root = SHA256(chunk_A || chunk_B)`. -/
def ForkData.hashTreeRoot (fd : ForkData) : List Nat :=
  sha256 ((fd.currentVersion ++ List.replicate 32 0).take 32 ++
    fd.genesisValidatorsRoot)

/-- Source `ForkData.ComputeDomain`: the domain is the 4-byte domain type followed
by the first 28 bytes of the fork-data root
(`Domain(append(domainType[:], forkDataRoot[:28]...))`). -/
def ForkData.computeDomain (fd : ForkData) (domainType : List Nat) : List Nat :=
  domainType ++ fd.hashTreeRoot.take 28

/-- Modelled from the spec/library convention: `version.FromUint32` encodes a
`uint32` fork version as its 4 little-endian bytes. -/
def versionFromUint32 (v : Nat) : List Nat := toBytesLE 4 v

/-- Modelled from the spec: `ForkData.ComputeRandaoSigningRoot` is not among
the available sources; per "the signing root over the domain-and-epoch tuple
per the signed-message convention", it is the hash-tree-root of the two-field
container holding the epoch's 32-byte root (the epoch as 8 little-endian
bytes, zero-padded to 32) and the RANDAO domain from `computeDomain`. -/
def ForkData.computeRandaoSigningRoot (fd : ForkData) (domainType : List Nat)
    (epoch : Nat) : List Nat :=
  sha256 ((toBytesLE 8 epoch ++ List.replicate 24 0) ++
    fd.computeDomain domainType)

/-! ## RANDAO mix generator (`StateProcessor.buildRandaoMix`) -/

/-- Source `buildRandaoMix`: hash the reveal signature down to 32 bytes with
SHA-256, then XOR it byte-wise into the previous mix
(`xor.Bytes(newMix, mix[:], revealHash[:])` into a fresh 32-byte buffer). -/
def buildRandaoMix (mix reveal : List Nat) : List Nat :=
  List.zipWith Nat.xor mix (sha256 reveal)

/-! ## Beacon-state collaborators and the state processor (`randao.go`) -/

/-- A validator, reduced to the capability the slice uses: its public key
(`proposer.GetPubkey()`). -/
structure Validator where
  pubkey : List Nat
deriving DecidableEq, Repr

/-- A beacon block body, reduced to `GetRandaoReveal`. -/
structure BeaconBlockBody where
  randaoReveal : List Nat
deriving DecidableEq, Repr

/-- A beacon block, reduced to `GetProposerIndex` and `GetBody`. -/
structure BeaconBlock where
  proposerIndex : Nat
  body : BeaconBlockBody
deriving DecidableEq, Repr

/-- The processing context, reduced to `GetSkipValidateRandao`. -/
structure Context where
  skipValidateRandao : Bool
deriving DecidableEq, Repr

/-- The chain-spec collaborator (`sp.cs`): slot-to-epoch mapping, active fork
version lookup, RANDAO domain type and historical-vector size. -/
structure ChainSpec where
  slotToEpoch : Nat → Nat
  activeForkVersionForEpoch : Nat → Nat
  domainTypeRandao : List Nat
  epochsPerHistoricalVector : Nat

/-- The signer collaborator (`sp.signer`): signature verification returning
a value-level error on mismatch. -/
structure Signer where
  verifySignature : List Nat → List Nat → List Nat → Except Err Unit

/-- The `BeaconStateT` capability set the processor is generic over, as a
record of fallible accessors mirroring the interface contracts of §6. -/
structure StateOps (σ : Type) where
  getSlot : σ → Except Err Nat
  validatorByIndex : σ → Nat → Except Err Validator
  getGenesisValidatorsRoot : σ → Except Err (List Nat)
  getRandaoMixAtIndex : σ → Nat → Except Err (List Nat)
  updateRandaoMixAtIndex : σ → Nat → List Nat → Except Err σ

/-- Source `StateProcessor.processRandaoReveal`, transcribed match-for-match from
the source: read slot; resolve the proposer by the block's proposer index;
read the genesis validators root; build `ForkData` for the epoch's active
fork version; unless the context skips validation, verify the reveal
signature against the proposer's public key over the RANDAO signing root;
read the previous mix at `epoch mod V` and write `buildRandaoMix` of it and
the reveal at the same index.  Every failed step returns its error
unchanged. -/
def processRandaoReveal {σ : Type} (ops : StateOps σ) (signer : Signer)
    (cs : ChainSpec) (ctx : Context) (st : σ) (blk : BeaconBlock) :
    Except Err σ :=
  match ops.getSlot st with
  | .error e => .error e
  | .ok slot =>
    match ops.validatorByIndex st blk.proposerIndex with
    | .error e => .error e
    | .ok proposer =>
      match ops.getGenesisValidatorsRoot st with
      | .error e => .error e
      | .ok genesisValidatorsRoot =>
        let epoch := cs.slotToEpoch slot
        let body := blk.body
        let fd := ForkData.new
          (versionFromUint32 (cs.activeForkVersionForEpoch epoch))
          genesisValidatorsRoot
        let check : Except Err Unit :=
          if ctx.skipValidateRandao then .ok ()
          else signer.verifySignature proposer.pubkey
            (fd.computeRandaoSigningRoot cs.domainTypeRandao epoch)
            body.randaoReveal
        match check with
        | .error e => .error e
        | .ok _ =>
          match ops.getRandaoMixAtIndex st
            (epoch % cs.epochsPerHistoricalVector) with
          | .error e => .error e
          | .ok prevMix =>
            ops.updateRandaoMixAtIndex st
              (epoch % cs.epochsPerHistoricalVector)
              (buildRandaoMix prevMix body.randaoReveal)

/-- Source `StateProcessor.processRandaoMixesReset`, transcribed from the source:
read the slot, read the mix at `epoch mod V`, write that same value at
`(epoch + 1) mod V`. -/
def processRandaoMixesReset {σ : Type} (ops : StateOps σ) (cs : ChainSpec)
    (st : σ) : Except Err σ :=
  match ops.getSlot st with
  | .error e => .error e
  | .ok slot =>
    let epoch := cs.slotToEpoch slot
    match ops.getRandaoMixAtIndex st
      (epoch % cs.epochsPerHistoricalVector) with
    | .error e => .error e
    | .ok mix =>
      ops.updateRandaoMixAtIndex st
        ((epoch + 1) % cs.epochsPerHistoricalVector) mix

/-- A concrete beacon state holding the data the slice touches. -/
structure BeaconState where
  slot : Nat
  genesisValidatorsRoot : List Nat
  validators : List Validator
  randaoMixes : List (List Nat)
deriving DecidableEq, Repr

/-- Modelled from the spec: the key-value backed `BeaconState` store is an
external collaborator (§6) whose implementation is not among the available
sources.  Plain field reads succeed; `validator_by_index` fails with
`InvalidProposer` when the index is out of range of the validator registry
(§4.3 step 2); mix reads and writes fail with `StoreError` out of range. -/
def beaconStateOps : StateOps BeaconState where
  getSlot st := .ok st.slot
  validatorByIndex st i :=
    match st.validators[i]? with
    | some v => .ok v
    | none => .error .invalidProposer
  getGenesisValidatorsRoot st := .ok st.genesisValidatorsRoot
  getRandaoMixAtIndex st i :=
    match st.randaoMixes[i]? with
    | some m => .ok m
    | none => .error .storeError
  updateRandaoMixAtIndex st i m :=
    if i < st.randaoMixes.length then
      .ok { st with randaoMixes := st.randaoMixes.set i m }
    else .error .storeError

/-! ## Engine request builder (`requests.go`) -/

/-- An execution payload, reduced to the declared fields the
`HasValidVersionedAndBlockHashes` check reads through its getters, plus the
versioned hashes implied by its blob commitments. -/
structure ExecutionPayload where
  parentHash : List Nat
  feeRecipient : List Nat
  stateRoot : List Nat
  receiptsRoot : List Nat
  logsBloom : List Nat
  prevRandao : List Nat
  number : Nat
  gasLimit : Nat
  gasUsed : Nat
  timestamp : Nat
  extraData : List Nat
  baseFeePerGas : Nat
  blockHash : List Nat
  transactions : List (List Nat)
  withdrawals : List (List Nat)
  blobGasUsed : Nat
  excessBlobGas : Nat
  blobHashes : List (List Nat)
deriving DecidableEq, Repr

/-- Source `NewPayloadRequest` (`type NewPayloadRequest struct`). -/
structure NewPayloadRequest where
  executionPayload : ExecutionPayload
  versionedHashes : List (List Nat)
  parentBeaconBlockRoot : Option (List Nat)
  skipIfExists : Bool
  optimistic : Bool
deriving DecidableEq, Repr

/-- Source `BuildNewPayloadRequest`: plain field-for-field construction. -/
def buildNewPayloadRequest (executionPayload : ExecutionPayload)
    (versionedHashes : List (List Nat))
    (parentBeaconBlockRoot : Option (List Nat))
    (skipIfExists optimistic : Bool) : NewPayloadRequest :=
  ⟨executionPayload, versionedHashes, parentBeaconBlockRoot,
   skipIfExists, optimistic⟩

/-- Length-tagged flat encoding of a list of byte strings, used by the
modelled canonical block hash. -/
def encList (l : List (List Nat)) : List Nat :=
  l.foldr (fun x acc => toBytesBE 8 x.length ++ x ++ acc) []

/-- Modelled from the spec: the canonical execution-block hash recomputed by
go-ethereum's `ExecutableDataToBlock` is not among the available sources.
The spec says the check "reconstructs a canonical execution-block
representation from the payload's declared fields (parent hash, fee
recipient, state/receipts roots, logs bloom, randomness value, block number,
gas limit/used, timestamp, extra data, base fee, transaction list,
withdrawal list, blob-gas fields) and recomputes its canonical hash"; we
model that hash as SHA-256 of a length-tagged flat encoding of exactly those
fields together with the optional parent beacon block root.  The declared
block hash itself is not an input of the recomputation. -/
def canonicalBlockHash (p : ExecutionPayload)
    (parentBeaconBlockRoot : Option (List Nat)) : List Nat :=
  sha256 (encList [p.parentHash, p.feeRecipient, p.stateRoot, p.receiptsRoot,
    p.logsBloom, p.prevRandao, toBytesBE 8 p.number, toBytesBE 8 p.gasLimit,
    toBytesBE 8 p.gasUsed, toBytesBE 8 p.timestamp, p.extraData,
    toBytesBE 32 p.baseFeePerGas] ++
    encList p.transactions ++ encList p.withdrawals ++
    toBytesBE 8 p.blobGasUsed ++ toBytesBE 8 p.excessBlobGas ++
    (match parentBeaconBlockRoot with | some r => 1 :: r | none => [0]))

/-- Modelled from the spec: go-ethereum's `ExecutableDataToBlock` is not
among the available sources.  Per §4.4 it recomputes the canonical hash and
compares it against the payload's declared block hash, failing with
`InvalidBlockHash` on mismatch, and checks that the supplied versioned
hashes match the count and values implied by the payload's blob
commitments, failing with `InvalidVersionedHashes` on mismatch. -/
def executableDataToBlock (p : ExecutionPayload)
    (versionedHashes : List (List Nat))
    (parentBeaconBlockRoot : Option (List Nat)) : Except Err Unit :=
  if canonicalBlockHash p parentBeaconBlockRoot ≠ p.blockHash then
    .error .invalidBlockHash
  else if versionedHashes ≠ p.blobHashes then
    .error .invalidVersionedHashes
  else .ok ()

/-- Source `NewPayloadRequest.HasValidVersionedAndBlockHashes`: assemble the
declared payload fields into executable data and delegate to
`executableDataToBlock` with the request's versioned hashes and parent
beacon block root. -/
def NewPayloadRequest.hasValidVersionedAndBlockHashes
    (n : NewPayloadRequest) : Except Err Unit :=
  executableDataToBlock n.executionPayload n.versionedHashes
    n.parentBeaconBlockRoot

/-! ## Helper lemmas -/

/-- Zero-padding a 4-byte string to a 32-byte chunk appends exactly 28
zero bytes. -/
theorem pad32_of_len4 (l : List Nat) (h : l.length = 4) :
    (l ++ List.replicate 32 (0 : Nat)).take 32 = l ++ List.replicate 28 0 := by
  rw [List.take_append_eq_append_take, List.take_of_length_le (by omega),
    List.take_replicate, h]
  norm_num

/-- Lemma: `getD` distributes over byte-wise XOR of two lists at in-range
positions. -/
theorem getD_zipWith_xor (as bs : List Nat) (i : Nat)
    (h1 : i < as.length) (h2 : i < bs.length) :
    (List.zipWith Nat.xor as bs).getD i 0 =
      Nat.xor (as.getD i 0) (bs.getD i 0) := by
  induction as generalizing bs i with
  | nil => simp at h1
  | cons a as ih =>
    cases bs with
    | nil => simp at h2
    | cons b bs =>
      cases i with
      | zero => rfl
      | succ n =>
        simp only [List.zipWith_cons_cons, List.getD_cons_succ]
        exact ih bs n (by simpa using h1) (by simpa using h2)

/-- XOR-ing a byte string in twice recovers the original list. -/
theorem zipWith_xor_cancel_right (as bs : List Nat)
    (h : as.length = bs.length) :
    List.zipWith Nat.xor (List.zipWith Nat.xor as bs) bs = as := by
  induction as generalizing bs with
  | nil => simp
  | cons a as ih =>
    cases bs with
    | nil => simp at h
    | cons b bs =>
      simp only [List.zipWith_cons_cons, List.cons.injEq]
      exact ⟨Nat.xor_cancel_right b a, ih bs (by simpa using h)⟩

/-! ## Claim theorems -/

set_option maxRecDepth 1000000
set_option maxHeartbeats 2000000

/-- C1: for every `ForkData` (4-byte version, 32-byte genesis validators
root) and 4-byte domain type, `ComputeDomain` returns the 32-byte value
`domain_type || fork_data_root[0:28]` where the fork-data root is the
SHA-256 of the version chunk zero-padded to 32 bytes followed by the
genesis validators root; and it is not the hash of the raw concatenation of
the unpadded field bytes, witnessed at a concrete fork-data value. -/
theorem computeDomain_spec (fd : ForkData) (dt : List Nat)
    (hv : fd.currentVersion.length = 4) (hd : dt.length = 4) :
    fd.computeDomain dt =
      dt ++ (sha256 ((fd.currentVersion ++ List.replicate 28 0) ++
        fd.genesisValidatorsRoot)).take 28 ∧
    (fd.computeDomain dt).length = 32 ∧
    (ForkData.new [1, 2, 3, 4] (List.replicate 32 0)).computeDomain
        [7, 0, 0, 0] ≠
      [7, 0, 0, 0] ++
        (sha256 ([1, 2, 3, 4] ++ List.replicate 32 0)).take 28 := by
  refine ⟨?_, ?_, by decide⟩
  · simp only [ForkData.computeDomain, ForkData.hashTreeRoot]
    rw [pad32_of_len4 _ hv]
  · have h32 : fd.hashTreeRoot.length = 32 := sha256_length _
    simp [ForkData.computeDomain, hd, h32]

/-- Witness for C1 at a concrete fork-data value and domain type. -/
theorem computeDomain_spec_witness :
    ([1, 2, 3, 4] : List Nat).length = 4 ∧
    ((ForkData.new [1, 2, 3, 4]
      (List.replicate 32 0)).computeDomain [7, 0, 0, 0]).length = 32 :=
  ⟨by decide,
   (computeDomain_spec (ForkData.new [1, 2, 3, 4] (List.replicate 32 0))
     [7, 0, 0, 0] (by decide) (by decide)).2.1⟩

/-- C2: `buildRandaoMix` returns the byte-wise XOR of the 32-byte previous
mix with the SHA-256 hash of the (variable-length) reveal signature, as a
32-byte value; it is a total function, so there is no failure path. -/
theorem buildRandaoMix_spec (mix reveal : List Nat) (hm : mix.length = 32) :
    (buildRandaoMix mix reveal).length = 32 ∧
    ∀ i : Nat, i < 32 →
      (buildRandaoMix mix reveal).getD i 0 =
        Nat.xor (mix.getD i 0) ((sha256 reveal).getD i 0) := by
  have hl : (sha256 reveal).length = 32 := sha256_length reveal
  constructor
  · simp [buildRandaoMix, hm, hl]
  · intro i hi
    exact getD_zipWith_xor mix (sha256 reveal) i (by omega) (by omega)

/-- Witness for C2 at a concrete 32-byte mix and a short reveal. -/
theorem buildRandaoMix_spec_witness :
    (List.replicate 32 (5 : Nat)).length = 32 ∧
    ((buildRandaoMix (List.replicate 32 5) [1, 2, 3]).length = 32 ∧
     ∀ i : Nat, i < 32 →
       (buildRandaoMix (List.replicate 32 5) [1, 2, 3]).getD i 0 =
         Nat.xor ((List.replicate 32 (5 : Nat)).getD i 0)
           ((sha256 [1, 2, 3]).getD i 0)) :=
  ⟨by decide, buildRandaoMix_spec (List.replicate 32 5) [1, 2, 3] (by decide)⟩

/-- C5: `buildRandaoMix` is deterministic, and XOR-ing its output byte-wise
with the reveal hash recovers the previous 32-byte mix. -/
theorem buildRandaoMix_xor_cancel (m r : List Nat) (hm : m.length = 32) :
    List.zipWith Nat.xor (buildRandaoMix m r) (sha256 r) = m ∧
    ∀ m' r', m = m' → r = r' → buildRandaoMix m r = buildRandaoMix m' r' := by
  refine ⟨?_, ?_⟩
  · exact zipWith_xor_cancel_right m (sha256 r) (by rw [hm, sha256_length])
  · intro m' r' h1 h2
    rw [h1, h2]

/-- Witness for C5 at a concrete 32-byte mix and a short reveal. -/
theorem buildRandaoMix_xor_cancel_witness :
    (List.replicate 32 (9 : Nat)).length = 32 ∧
    List.zipWith Nat.xor (buildRandaoMix (List.replicate 32 9) [4, 4])
      (sha256 [4, 4]) = List.replicate 32 9 :=
  ⟨by decide,
   (buildRandaoMix_xor_cancel (List.replicate 32 9) [4, 4] (by decide)).1⟩

/-! ### Concrete fixtures used by the remaining witnesses -/

/-- A chain spec with identity slot-to-epoch mapping and a historical
vector of 8 entries. -/
def demoSpec : ChainSpec := ⟨fun s => s, fun _ => 7, [2, 0, 0, 0], 8⟩

/-- A single registered validator. -/
def demoValidator : Validator := ⟨[170, 187]⟩

/-- Eight 32-byte mixes; the entry at index 3 is the distinguished value
`X = 32 copies of 171`. -/
def demoMixes : List (List Nat) :=
  [List.replicate 32 0, List.replicate 32 0, List.replicate 32 0,
   List.replicate 32 171, List.replicate 32 0, List.replicate 32 0,
   List.replicate 32 0, List.replicate 32 0]

/-- A beacon state at slot 3 (hence epoch 3 under `demoSpec`). -/
def demoState : BeaconState :=
  ⟨3, List.replicate 32 1, [demoValidator], demoMixes⟩

/-- A block by proposer 0 carrying a short reveal signature. -/
def demoBlock : BeaconBlock := ⟨0, ⟨[9, 9, 9]⟩⟩

/-- A signer that rejects every signature with `InvalidSignature`. -/
def alwaysRejectSigner : Signer := ⟨fun _ _ _ => .error .invalidSignature⟩

/-- A signer that accepts every signature. -/
def alwaysAcceptSigner : Signer := ⟨fun _ _ _ => .ok ()⟩

/-- C4: `processRandaoMixesReset` reads the mix at `epoch mod V` and writes
that same value, unchanged, at `(epoch + 1) mod V`; the new vector agrees at
the target index with the old vector at the source index. -/
theorem processRandaoMixesReset_spec (cs : ChainSpec) (st : BeaconState)
    (h1 : cs.slotToEpoch st.slot % cs.epochsPerHistoricalVector <
      st.randaoMixes.length)
    (h2 : (cs.slotToEpoch st.slot + 1) % cs.epochsPerHistoricalVector <
      st.randaoMixes.length) :
    processRandaoMixesReset beaconStateOps cs st =
      .ok (BeaconState.mk st.slot st.genesisValidatorsRoot st.validators
        (st.randaoMixes.set
          ((cs.slotToEpoch st.slot + 1) % cs.epochsPerHistoricalVector)
          (st.randaoMixes.getD
            (cs.slotToEpoch st.slot % cs.epochsPerHistoricalVector) []))) ∧
    (st.randaoMixes.set
        ((cs.slotToEpoch st.slot + 1) % cs.epochsPerHistoricalVector)
        (st.randaoMixes.getD
          (cs.slotToEpoch st.slot % cs.epochsPerHistoricalVector) []))[
      (cs.slotToEpoch st.slot + 1) % cs.epochsPerHistoricalVector]? =
      st.randaoMixes[cs.slotToEpoch st.slot % cs.epochsPerHistoricalVector]? := by
  have e1 : st.randaoMixes[cs.slotToEpoch st.slot %
      cs.epochsPerHistoricalVector]? =
      some (st.randaoMixes.getD
        (cs.slotToEpoch st.slot % cs.epochsPerHistoricalVector) []) := by
    rw [List.getElem?_eq_getElem h1, List.getD_eq_getElem _ _ h1]
  constructor
  · simp only [processRandaoMixesReset, beaconStateOps, e1, h2, if_true]
  · rw [List.getElem?_set_eq_of_lt _ h2, e1]

/-- Witness for C4: the epoch-boundary scenario with
`epochs_per_historical_vector = 8`, epoch 3 and `X = 32 copies of 171`
stored at index 3 — after the reset, index 4 holds `X`. -/
theorem processRandaoMixesReset_spec_witness :
    demoState.randaoMixes[3]? = some (List.replicate 32 171) ∧
    (match processRandaoMixesReset beaconStateOps demoSpec demoState with
     | .ok st' => st'.randaoMixes[4]? = some (List.replicate 32 171)
     | .error _ => False) := by
  refine ⟨by decide, ?_⟩
  have h := (processRandaoMixesReset_spec demoSpec demoState
    (by decide) (by decide)).1
  rw [h]
  decide

/-- C3: with validation enabled (the context does not request skipping) and
the reveal signature failing verification against the proposer's public key
over the computed signing root, `processRandaoReveal` returns
`InvalidSignature` and performs no state write: the error is returned for
every implementation of the mix-update accessor, so the write step is never
invoked and the beacon state is exactly as before the call. -/
theorem processRandaoReveal_invalidSignature {σ : Type} (ops : StateOps σ)
    (signer : Signer) (cs : ChainSpec) (ctx : Context) (st : σ)
    (blk : BeaconBlock) (slot : Nat) (proposer : Validator) (gvr : List Nat)
    (hskip : ctx.skipValidateRandao = false)
    (hs : ops.getSlot st = .ok slot)
    (hp : ops.validatorByIndex st blk.proposerIndex = .ok proposer)
    (hg : ops.getGenesisValidatorsRoot st = .ok gvr)
    (hsig : signer.verifySignature proposer.pubkey
      ((ForkData.new
        (versionFromUint32 (cs.activeForkVersionForEpoch (cs.slotToEpoch slot)))
        gvr).computeRandaoSigningRoot cs.domainTypeRandao (cs.slotToEpoch slot))
      blk.body.randaoReveal = .error .invalidSignature) :
    ∀ upd, processRandaoReveal
      { ops with updateRandaoMixAtIndex := upd } signer cs ctx st blk =
      .error .invalidSignature := by
  intro upd
  simp [processRandaoReveal, hs, hp, hg, hskip, hsig]

/-- Witness for C3: a concrete state and block with an always-rejecting
signer; the call returns `InvalidSignature` under the genuine update
accessor. -/
theorem processRandaoReveal_invalidSignature_witness :
    (Context.mk false).skipValidateRandao = false ∧
    processRandaoReveal
      { beaconStateOps with
        updateRandaoMixAtIndex := beaconStateOps.updateRandaoMixAtIndex }
      alwaysRejectSigner demoSpec (Context.mk false) demoState demoBlock =
      .error .invalidSignature :=
  ⟨rfl,
   processRandaoReveal_invalidSignature beaconStateOps alwaysRejectSigner
     demoSpec (Context.mk false) demoState demoBlock 3 demoValidator
     (List.replicate 32 1) rfl rfl rfl rfl rfl
     beaconStateOps.updateRandaoMixAtIndex⟩

/-- C6: when the context requests skipping validation, `processRandaoReveal`
never invokes signature verification — the result is the same for every
signer and independent of the proposer's public key — and it still updates
the mix slot at index `epoch mod V` to `buildRandaoMix` of the previous mix
and the block's randao reveal. -/
theorem processRandaoReveal_skip {σ : Type} (ops : StateOps σ)
    (signer : Signer) (cs : ChainSpec) (ctx : Context) (st : σ)
    (blk : BeaconBlock) (slot : Nat) (proposer : Validator) (gvr : List Nat)
    (prevMix : List Nat)
    (hskip : ctx.skipValidateRandao = true)
    (hs : ops.getSlot st = .ok slot)
    (hp : ops.validatorByIndex st blk.proposerIndex = .ok proposer)
    (hg : ops.getGenesisValidatorsRoot st = .ok gvr)
    (hm : ops.getRandaoMixAtIndex st
      (cs.slotToEpoch slot % cs.epochsPerHistoricalVector) = .ok prevMix) :
    processRandaoReveal ops signer cs ctx st blk =
      ops.updateRandaoMixAtIndex st
        (cs.slotToEpoch slot % cs.epochsPerHistoricalVector)
        (buildRandaoMix prevMix blk.body.randaoReveal) := by
  simp [processRandaoReveal, hs, hp, hg, hskip, hm]

/-- Witness for C6: with skipping requested, even the always-rejecting
signer leaves the result equal to the mix update. -/
theorem processRandaoReveal_skip_witness :
    (Context.mk true).skipValidateRandao = true ∧
    processRandaoReveal beaconStateOps alwaysRejectSigner demoSpec
      (Context.mk true) demoState demoBlock =
      beaconStateOps.updateRandaoMixAtIndex demoState
        (demoSpec.slotToEpoch demoState.slot %
          demoSpec.epochsPerHistoricalVector)
        (buildRandaoMix (List.replicate 32 171)
          demoBlock.body.randaoReveal) :=
  ⟨rfl,
   processRandaoReveal_skip beaconStateOps alwaysRejectSigner demoSpec
     (Context.mk true) demoState demoBlock 3 demoValidator
     (List.replicate 32 1) (List.replicate 32 171) rfl rfl rfl rfl rfl⟩

/-- C7: every failed state read in `processRandaoReveal` propagates its
`StoreError` and aborts the whole operation; the conclusion holds for every
implementation of the mix-update accessor, so the write of step 8 is never
executed after an earlier read failed and no partial mutation is visible.
The four conjuncts cover the four reads: slot, proposer, genesis validators
root, and previous mix. -/
theorem processRandaoReveal_storeError {σ : Type} (ops : StateOps σ)
    (signer : Signer) (cs : ChainSpec) (ctx : Context) (st : σ)
    (blk : BeaconBlock) :
    (ops.getSlot st = .error .storeError →
      ∀ upd, processRandaoReveal
        { ops with updateRandaoMixAtIndex := upd } signer cs ctx st blk =
        .error .storeError) ∧
    (∀ slot, ops.getSlot st = .ok slot →
      ops.validatorByIndex st blk.proposerIndex = .error .storeError →
      ∀ upd, processRandaoReveal
        { ops with updateRandaoMixAtIndex := upd } signer cs ctx st blk =
        .error .storeError) ∧
    (∀ slot proposer, ops.getSlot st = .ok slot →
      ops.validatorByIndex st blk.proposerIndex = .ok proposer →
      ops.getGenesisValidatorsRoot st = .error .storeError →
      ∀ upd, processRandaoReveal
        { ops with updateRandaoMixAtIndex := upd } signer cs ctx st blk =
        .error .storeError) ∧
    (∀ slot proposer gvr, ops.getSlot st = .ok slot →
      ops.validatorByIndex st blk.proposerIndex = .ok proposer →
      ops.getGenesisValidatorsRoot st = .ok gvr →
      (ctx.skipValidateRandao = true ∨
        signer.verifySignature proposer.pubkey
          ((ForkData.new
            (versionFromUint32
              (cs.activeForkVersionForEpoch (cs.slotToEpoch slot)))
            gvr).computeRandaoSigningRoot cs.domainTypeRandao
            (cs.slotToEpoch slot))
          blk.body.randaoReveal = .ok ()) →
      ops.getRandaoMixAtIndex st
        (cs.slotToEpoch slot % cs.epochsPerHistoricalVector) =
        .error .storeError →
      ∀ upd, processRandaoReveal
        { ops with updateRandaoMixAtIndex := upd } signer cs ctx st blk =
        .error .storeError) := by
  refine ⟨?_, ?_, ?_, ?_⟩
  · intro hs upd
    simp [processRandaoReveal, hs]
  · intro slot hs hp upd
    simp [processRandaoReveal, hs, hp]
  · intro slot proposer hs hp hg upd
    simp [processRandaoReveal, hs, hp, hg]
  · intro slot proposer gvr hs hp hg hv hm upd
    rcases hv with hv | hv
    · simp [processRandaoReveal, hs, hp, hg, hv, hm]
    · by_cases hskip : ctx.skipValidateRandao
      · simp [processRandaoReveal, hs, hp, hg, hskip, hm]
      · simp [processRandaoReveal, hs, hp, hg, hskip, hv, hm]

/-- Witness for C7: a slot read failing with `StoreError` propagates, and a
previous-mix read failing with `StoreError` propagates after all earlier
reads succeeded, both under the genuine update accessor. -/
theorem processRandaoReveal_storeError_witness :
    processRandaoReveal
      { beaconStateOps with
        getSlot := fun _ => .error .storeError,
        updateRandaoMixAtIndex := beaconStateOps.updateRandaoMixAtIndex }
      alwaysAcceptSigner demoSpec (Context.mk true) demoState demoBlock =
      .error .storeError ∧
    processRandaoReveal
      { beaconStateOps with
        updateRandaoMixAtIndex := beaconStateOps.updateRandaoMixAtIndex }
      alwaysAcceptSigner demoSpec (Context.mk true)
      (BeaconState.mk 3 (List.replicate 32 1) [demoValidator] [])
      demoBlock = .error .storeError :=
  ⟨(processRandaoReveal_storeError
      { beaconStateOps with getSlot := fun _ => .error .storeError }
      alwaysAcceptSigner demoSpec (Context.mk true) demoState demoBlock).1
      rfl beaconStateOps.updateRandaoMixAtIndex,
   (processRandaoReveal_storeError beaconStateOps alwaysAcceptSigner demoSpec
      (Context.mk true)
      (BeaconState.mk 3 (List.replicate 32 1) [demoValidator] [])
      demoBlock).2.2.2 3 demoValidator (List.replicate 32 1) rfl rfl rfl
      (Or.inl rfl) rfl beaconStateOps.updateRandaoMixAtIndex⟩

/-- C9: over the spec-modelled beacon-state accessors, `processRandaoReveal`
fails with the specific error `InvalidProposer` whenever the block's
proposer index is out of range of the state's validator registry, for every
implementation of the mix-update accessor — so no state mutation occurs. -/
theorem processRandaoReveal_invalidProposer (signer : Signer)
    (cs : ChainSpec) (ctx : Context) (st : BeaconState) (blk : BeaconBlock)
    (h : st.validators.length ≤ blk.proposerIndex) :
    ∀ upd, processRandaoReveal
      { beaconStateOps with updateRandaoMixAtIndex := upd } signer cs ctx
      st blk = .error .invalidProposer := by
  intro upd
  have hnone : st.validators[blk.proposerIndex]? = none :=
    List.getElem?_eq_none h
  simp [processRandaoReveal, beaconStateOps, hnone]

/-- Witness for C9: proposer index 5 against a 1-validator registry. -/
theorem processRandaoReveal_invalidProposer_witness :
    demoState.validators.length ≤ 5 ∧
    processRandaoReveal
      { beaconStateOps with
        updateRandaoMixAtIndex := beaconStateOps.updateRandaoMixAtIndex }
      alwaysAcceptSigner demoSpec (Context.mk false) demoState
      (BeaconBlock.mk 5 (BeaconBlockBody.mk [9, 9, 9])) =
      .error .invalidProposer :=
  ⟨by decide,
   processRandaoReveal_invalidProposer alwaysAcceptSigner demoSpec
     (Context.mk false) demoState
     (BeaconBlock.mk 5 (BeaconBlockBody.mk [9, 9, 9])) (by decide)
     beaconStateOps.updateRandaoMixAtIndex⟩

/-- C10: the proposer lookup happens before the skip-validation check: if
the lookup fails with any error, `processRandaoReveal` returns that error
and writes nothing (for every implementation of the mix-update accessor),
regardless of the context's skip flag. -/
theorem processRandaoReveal_proposerLookupBeforeSkip {σ : Type}
    (ops : StateOps σ) (signer : Signer) (cs : ChainSpec) (ctx : Context)
    (st : σ) (blk : BeaconBlock) (slot : Nat) (e : Err)
    (hs : ops.getSlot st = .ok slot)
    (hp : ops.validatorByIndex st blk.proposerIndex = .error e) :
    ∀ upd, processRandaoReveal
      { ops with updateRandaoMixAtIndex := upd } signer cs ctx st blk =
      .error e := by
  intro upd
  simp [processRandaoReveal, hs, hp]

/-- Witness for C10: an out-of-range proposer index fails identically with
the skip flag set and cleared. -/
theorem processRandaoReveal_proposerLookupBeforeSkip_witness :
    beaconStateOps.validatorByIndex demoState 5 = .error .invalidProposer ∧
    processRandaoReveal
      { beaconStateOps with
        updateRandaoMixAtIndex := beaconStateOps.updateRandaoMixAtIndex }
      alwaysAcceptSigner demoSpec (Context.mk true) demoState
      (BeaconBlock.mk 5 (BeaconBlockBody.mk [9, 9, 9])) =
      .error .invalidProposer ∧
    processRandaoReveal
      { beaconStateOps with
        updateRandaoMixAtIndex := beaconStateOps.updateRandaoMixAtIndex }
      alwaysAcceptSigner demoSpec (Context.mk false) demoState
      (BeaconBlock.mk 5 (BeaconBlockBody.mk [9, 9, 9])) =
      .error .invalidProposer :=
  ⟨rfl,
   processRandaoReveal_proposerLookupBeforeSkip beaconStateOps
     alwaysAcceptSigner demoSpec (Context.mk true) demoState
     (BeaconBlock.mk 5 (BeaconBlockBody.mk [9, 9, 9])) 3 .invalidProposer
     rfl rfl beaconStateOps.updateRandaoMixAtIndex,
   processRandaoReveal_proposerLookupBeforeSkip beaconStateOps
     alwaysAcceptSigner demoSpec (Context.mk false) demoState
     (BeaconBlock.mk 5 (BeaconBlockBody.mk [9, 9, 9])) 3 .invalidProposer
     rfl rfl beaconStateOps.updateRandaoMixAtIndex⟩

/-- C8: `HasValidVersionedAndBlockHashes` succeeds exactly when the
recomputed canonical hash equals the payload's declared block hash and the
supplied versioned hashes match the count and values implied by the
payload's blob commitments; on mismatch it fails with `InvalidBlockHash` or
`InvalidVersionedHashes` respectively; and replacing the payload by any
payload whose recomputed hash no longer matches the declared block hash
yields `InvalidBlockHash`. -/
theorem hasValidVersionedAndBlockHashes_spec (n : NewPayloadRequest) :
    (n.hasValidVersionedAndBlockHashes = .ok () ↔
      canonicalBlockHash n.executionPayload n.parentBeaconBlockRoot =
        n.executionPayload.blockHash ∧
      n.versionedHashes = n.executionPayload.blobHashes) ∧
    (n.hasValidVersionedAndBlockHashes = .error .invalidBlockHash ↔
      canonicalBlockHash n.executionPayload n.parentBeaconBlockRoot ≠
        n.executionPayload.blockHash) ∧
    (n.hasValidVersionedAndBlockHashes = .error .invalidVersionedHashes ↔
      (canonicalBlockHash n.executionPayload n.parentBeaconBlockRoot =
        n.executionPayload.blockHash ∧
       n.versionedHashes ≠ n.executionPayload.blobHashes)) ∧
    (∀ p', canonicalBlockHash p' n.parentBeaconBlockRoot ≠ p'.blockHash →
      NewPayloadRequest.hasValidVersionedAndBlockHashes
        { n with executionPayload := p' } = .error .invalidBlockHash) := by
  refine ⟨?_, ?_, ?_, ?_⟩
  · by_cases h1 : canonicalBlockHash n.executionPayload
        n.parentBeaconBlockRoot = n.executionPayload.blockHash <;>
      by_cases h2 : n.versionedHashes = n.executionPayload.blobHashes <;>
      simp [NewPayloadRequest.hasValidVersionedAndBlockHashes,
        executableDataToBlock, h1, h2]
  · by_cases h1 : canonicalBlockHash n.executionPayload
        n.parentBeaconBlockRoot = n.executionPayload.blockHash <;>
      by_cases h2 : n.versionedHashes = n.executionPayload.blobHashes <;>
      simp [NewPayloadRequest.hasValidVersionedAndBlockHashes,
        executableDataToBlock, h1, h2]
  · by_cases h1 : canonicalBlockHash n.executionPayload
        n.parentBeaconBlockRoot = n.executionPayload.blockHash <;>
      by_cases h2 : n.versionedHashes = n.executionPayload.blobHashes <;>
      simp [NewPayloadRequest.hasValidVersionedAndBlockHashes,
        executableDataToBlock, h1, h2]
  · intro p' hp
    simp [NewPayloadRequest.hasValidVersionedAndBlockHashes,
      executableDataToBlock, hp]

/-- A payload template whose declared block hash is a placeholder. -/
def demoPayloadBase : ExecutionPayload :=
  ⟨[1], [2], [3], [4], [5], [6], 10, 11, 12, 13, [7], 14, [],
   [[8]], [[9]], 15, 16, [[10]]⟩

/-- A concrete parent beacon block root. -/
def demoRoot : Option (List Nat) := some (List.replicate 32 2)

/-- The template with its declared block hash set to the recomputed
canonical hash, so the block-hash check passes. -/
def demoPayload : ExecutionPayload :=
  { demoPayloadBase with
    blockHash := canonicalBlockHash demoPayloadBase demoRoot }

/-- A well-formed new-payload request: matching block hash and versioned
hashes equal to the payload's implied blob hashes. -/
def demoRequest : NewPayloadRequest :=
  ⟨demoPayload, [[10]], demoRoot, false, true⟩

/-- Witness for C8: the well-formed request succeeds; dropping the
versioned hashes yields `InvalidVersionedHashes`; and perturbing each
declared payload field in turn — the declared block hash itself, parent
hash, fee recipient, state root, receipts root, logs bloom, randomness,
number, gas limit, gas used, timestamp, extra data, base fee, transactions,
withdrawals, and both blob-gas fields — yields `InvalidBlockHash`. -/
theorem hasValidVersionedAndBlockHashes_spec_witness :
    demoRequest.hasValidVersionedAndBlockHashes = .ok () ∧
    NewPayloadRequest.hasValidVersionedAndBlockHashes
      { demoRequest with versionedHashes := [] } =
      .error .invalidVersionedHashes ∧
    NewPayloadRequest.hasValidVersionedAndBlockHashes
      { demoRequest with
        executionPayload := { demoPayload with blockHash := [0] } } =
      .error .invalidBlockHash ∧
    NewPayloadRequest.hasValidVersionedAndBlockHashes
      { demoRequest with
        executionPayload := { demoPayload with parentHash := [99] } } =
      .error .invalidBlockHash ∧
    NewPayloadRequest.hasValidVersionedAndBlockHashes
      { demoRequest with
        executionPayload := { demoPayload with feeRecipient := [99] } } =
      .error .invalidBlockHash ∧
    NewPayloadRequest.hasValidVersionedAndBlockHashes
      { demoRequest with
        executionPayload := { demoPayload with stateRoot := [99] } } =
      .error .invalidBlockHash ∧
    NewPayloadRequest.hasValidVersionedAndBlockHashes
      { demoRequest with
        executionPayload := { demoPayload with receiptsRoot := [99] } } =
      .error .invalidBlockHash ∧
    NewPayloadRequest.hasValidVersionedAndBlockHashes
      { demoRequest with
        executionPayload := { demoPayload with logsBloom := [99] } } =
      .error .invalidBlockHash ∧
    NewPayloadRequest.hasValidVersionedAndBlockHashes
      { demoRequest with
        executionPayload := { demoPayload with prevRandao := [99] } } =
      .error .invalidBlockHash ∧
    NewPayloadRequest.hasValidVersionedAndBlockHashes
      { demoRequest with
        executionPayload := { demoPayload with number := 99 } } =
      .error .invalidBlockHash ∧
    NewPayloadRequest.hasValidVersionedAndBlockHashes
      { demoRequest with
        executionPayload := { demoPayload with gasLimit := 99 } } =
      .error .invalidBlockHash ∧
    NewPayloadRequest.hasValidVersionedAndBlockHashes
      { demoRequest with
        executionPayload := { demoPayload with gasUsed := 99 } } =
      .error .invalidBlockHash ∧
    NewPayloadRequest.hasValidVersionedAndBlockHashes
      { demoRequest with
        executionPayload := { demoPayload with timestamp := 99 } } =
      .error .invalidBlockHash ∧
    NewPayloadRequest.hasValidVersionedAndBlockHashes
      { demoRequest with
        executionPayload := { demoPayload with extraData := [99] } } =
      .error .invalidBlockHash ∧
    NewPayloadRequest.hasValidVersionedAndBlockHashes
      { demoRequest with
        executionPayload := { demoPayload with baseFeePerGas := 99 } } =
      .error .invalidBlockHash ∧
    NewPayloadRequest.hasValidVersionedAndBlockHashes
      { demoRequest with
        executionPayload := { demoPayload with transactions := [[99]] } } =
      .error .invalidBlockHash ∧
    NewPayloadRequest.hasValidVersionedAndBlockHashes
      { demoRequest with
        executionPayload := { demoPayload with withdrawals := [[99]] } } =
      .error .invalidBlockHash ∧
    NewPayloadRequest.hasValidVersionedAndBlockHashes
      { demoRequest with
        executionPayload := { demoPayload with blobGasUsed := 99 } } =
      .error .invalidBlockHash ∧
    NewPayloadRequest.hasValidVersionedAndBlockHashes
      { demoRequest with
        executionPayload := { demoPayload with excessBlobGas := 99 } } =
      .error .invalidBlockHash :=
  ⟨(hasValidVersionedAndBlockHashes_spec demoRequest).1.mpr ⟨rfl, rfl⟩,
   (hasValidVersionedAndBlockHashes_spec
     { demoRequest with versionedHashes := [] }).2.2.1.mpr
     ⟨rfl, by decide⟩,
   (hasValidVersionedAndBlockHashes_spec demoRequest).2.2.2
     { demoPayload with blockHash := [0] } (by decide),
   (hasValidVersionedAndBlockHashes_spec demoRequest).2.2.2
     { demoPayload with parentHash := [99] } (by decide),
   (hasValidVersionedAndBlockHashes_spec demoRequest).2.2.2
     { demoPayload with feeRecipient := [99] } (by decide),
   (hasValidVersionedAndBlockHashes_spec demoRequest).2.2.2
     { demoPayload with stateRoot := [99] } (by decide),
   (hasValidVersionedAndBlockHashes_spec demoRequest).2.2.2
     { demoPayload with receiptsRoot := [99] } (by decide),
   (hasValidVersionedAndBlockHashes_spec demoRequest).2.2.2
     { demoPayload with logsBloom := [99] } (by decide),
   (hasValidVersionedAndBlockHashes_spec demoRequest).2.2.2
     { demoPayload with prevRandao := [99] } (by decide),
   (hasValidVersionedAndBlockHashes_spec demoRequest).2.2.2
     { demoPayload with number := 99 } (by decide),
   (hasValidVersionedAndBlockHashes_spec demoRequest).2.2.2
     { demoPayload with gasLimit := 99 } (by decide),
   (hasValidVersionedAndBlockHashes_spec demoRequest).2.2.2
     { demoPayload with gasUsed := 99 } (by decide),
   (hasValidVersionedAndBlockHashes_spec demoRequest).2.2.2
     { demoPayload with timestamp := 99 } (by decide),
   (hasValidVersionedAndBlockHashes_spec demoRequest).2.2.2
     { demoPayload with extraData := [99] } (by decide),
   (hasValidVersionedAndBlockHashes_spec demoRequest).2.2.2
     { demoPayload with baseFeePerGas := 99 } (by decide),
   (hasValidVersionedAndBlockHashes_spec demoRequest).2.2.2
     { demoPayload with transactions := [[99]] } (by decide),
   (hasValidVersionedAndBlockHashes_spec demoRequest).2.2.2
     { demoPayload with withdrawals := [[99]] } (by decide),
   (hasValidVersionedAndBlockHashes_spec demoRequest).2.2.2
     { demoPayload with blobGasUsed := 99 } (by decide),
   (hasValidVersionedAndBlockHashes_spec demoRequest).2.2.2
     { demoPayload with excessBlobGas := 99 } (by decide)⟩

end BeaconKit
